import Mathlib

/-!
Verification of the TUG customer-profitability analysis
(`src/管理会计/tug-analysis/app.py`).

The file embeds, in Lean, the cost-allocation engine
`calculate_correct_client_profits` (app.py lines 147-236), the tab-3
feature-preparation / training / batch-prediction pipeline
(`create_tab3_analysis`, lines 1741-2109) and the tier classifier
`classify_customer` (lines 2099-2107), and proves or refutes the spec's
claims about them.

Modelling conventions:
* pandas float columns are modelled over `ℚ`; a value that pandas would
  render non-finite (NaN from `0/0`, ±infinity from `x/0`) is modelled
  as `none : Option ℚ` (see `pandasDiv`).
* a pandas DataFrame of customer rows is a `List RawRow` together with a
  `Cols` record saying which optional input columns are present
  (`col in df.columns` is a table-level test in the source, so presence
  flags live beside the list, not inside each row).
* the source's Chinese column names are not valid Lean identifiers, so
  each definition carries the spec's English name and its doc comment
  records the exact source column: total_revenue = 总收入,
  total_cogs = 总销售成本, gross_margin = 毛利,
  gross_margin_rate = 毛利率, variable_activity_cost = 五项变动费用,
  sales_commission = 分摊销售佣金, allocated_fixed_cost = 分摊固定成本,
  net_profit = 净利润, net_margin_rate = 净利润率,
  customer_id = 客户ID, customer_type = 客户类型.
* external library calls (scikit-learn) are not part of the repository;
  where a claim depends on their documented contract this is modelled
  explicitly and flagged in the doc comment.
-/

namespace TUG

/-- Float division as pandas performs it on columns: a zero denominator
yields a non-finite value (NaN for `0/0`, ±infinity otherwise), which we
model as `none`; a nonzero denominator gives the exact quotient. -/
def pandasDiv (a b : ℚ) : Option ℚ :=
  if b = 0 then none else some (a / b)

/-- Which optional input columns are present in the uploaded table.
The source tests `col in client_data.columns` once per column
(app.py lines 152, 162, 168, 186, 206, 1747). -/
structure Cols where
  rev : Fin 5 → Bool
  cost : Fin 5 → Bool
  act : Fin 5 → Bool
  hasId : Bool
  hasType : Bool

/-- One raw customer row.  The five `rev` entries are the product revenue
columns 瓦楞纸板收入 … 重型瓦楞纸收入 in the order of `products`
(app.py line 156), `cost` the five product COGS columns (line 157),
`act` the five activity-count columns
运输次数/订单数量/加急订单数量/问询次数/设计小时数 (lines 176-182).
`customer_id` (客户ID) is only meaningful when `Cols.hasId`,
`customer_type` (客户类型, `true` = 老客户) only when `Cols.hasType`.
`extra` carries any further columns of the caller's table, untouched by
the engine. -/
structure RawRow where
  customer_id : ℚ
  customer_type : Bool
  rev : Fin 5 → ℚ
  cost : Fin 5 → ℚ
  act : Fin 5 → ℚ
  extra : List (String × ℚ)

/-- Activity unit rates, app.py lines 176-182:
运输次数 7.00, 订单数量 0.17, 加急订单数量 267.00, 问询次数 33.00,
设计小时数 70.00. -/
def activity_rates : Fin 5 → ℚ := ![7, 17/100, 267, 33, 70]

/-- Product commission rates, app.py lines 195-201:
瓦楞纸板 3%, 瓦楞纸箱 3%, 模切盒 2%, 组合纸箱 1%, 重型瓦楞纸 1%. -/
def product_commission_rates : Fin 5 → ℚ := ![3/100, 3/100, 2/100, 1/100, 1/100]

/-- Column `client_data['总收入']`: sum of the present product revenue columns,
absent columns contributing nothing (app.py lines 160-163). -/
def total_revenue (c : Cols) (r : RawRow) : ℚ :=
  ∑ i, if c.rev i then r.rev i else 0

/-- Column `client_data['总销售成本']`: sum of the present product cost columns
(app.py lines 166-169). -/
def total_cogs (c : Cols) (r : RawRow) : ℚ :=
  ∑ i, if c.cost i then r.cost i else 0

/-- Column `client_data['毛利'] = 总收入 - 总销售成本` (app.py line 172). -/
def gross_margin (c : Cols) (r : RawRow) : ℚ :=
  total_revenue c r - total_cogs c r

/-- Column `client_data['毛利率'] = 毛利 / 总收入` (app.py line 173) — an
unguarded pandas division, non-finite when `总收入 = 0`. -/
def gross_margin_rate (c : Cols) (r : RawRow) : Option ℚ :=
  pandasDiv (gross_margin c r) (total_revenue c r)

/-- Column `client_data['五项变动费用']`: sum over the present activity columns of
`count × unit rate` (app.py lines 184-188). -/
def variable_activity_cost (c : Cols) (r : RawRow) : ℚ :=
  ∑ i, if c.act i then r.act i * activity_rates i else 0

/-- Column `client_data['分摊销售佣金']`: sum over the present product revenue
columns of `revenue × commission rate` (app.py lines 204-209). -/
def sales_commission (c : Cols) (r : RawRow) : ℚ :=
  ∑ i, if c.rev i then r.rev i * product_commission_rates i else 0

/-- Aggregate `total_five_activity_cost = client_data['五项变动费用'].sum()`
(app.py line 191). -/
def total_five_activity_cost (c : Cols) (rows : List RawRow) : ℚ :=
  (rows.map (variable_activity_cost c)).sum

/-- Aggregate `remaining_other_expenses = total_other_expenses_2020 -
total_five_activity_cost` (app.py line 192). -/
def remaining_other_expenses (c : Cols) (rows : List RawRow) (e : ℚ) : ℚ :=
  e - total_five_activity_cost c rows

/-- Aggregate `total_commission = client_data['分摊销售佣金'].sum()` (app.py line 212). -/
def total_commission (c : Cols) (rows : List RawRow) : ℚ :=
  (rows.map (sales_commission c)).sum

/-- Aggregate `remaining_fixed_cost = remaining_other_expenses - total_commission`
(app.py line 215). -/
def remaining_fixed_cost (c : Cols) (rows : List RawRow) (e : ℚ) : ℚ :=
  remaining_other_expenses c rows e - total_commission c rows

/-- Aggregate `total_revenue = client_data['总收入'].sum()` (app.py line 218),
the population-wide aggregate. -/
def total_revenue_all (c : Cols) (rows : List RawRow) : ℚ :=
  (rows.map (total_revenue c)).sum

/-- Column `client_data['分摊固定成本']`: when the population's total revenue is
positive, `总收入 × (remaining_fixed_cost / total_revenue)`; otherwise the
whole column is set to 0 (app.py lines 219-223). -/
def allocated_fixed_cost (c : Cols) (rows : List RawRow) (e : ℚ) (r : RawRow) : ℚ :=
  if 0 < total_revenue_all c rows then
    total_revenue c r * (remaining_fixed_cost c rows e / total_revenue_all c rows)
  else 0

/-- Column `client_data['净利润'] = 毛利 - 五项变动费用 - 分摊固定成本 -
分摊销售佣金` (app.py lines 226-231). -/
def net_profit (c : Cols) (rows : List RawRow) (e : ℚ) (r : RawRow) : ℚ :=
  gross_margin c r - variable_activity_cost c r -
    allocated_fixed_cost c rows e r - sales_commission c r

/-- Column `client_data['净利润率'] = 净利润 / 总收入` (app.py line 234) — again an
unguarded pandas division. -/
def net_margin_rate (c : Cols) (rows : List RawRow) (e : ℚ) (r : RawRow) : Option ℚ :=
  pandasDiv (net_profit c rows e r) (total_revenue c r)

/-- One row of the engine's returned (copied) frame: the caller's original
columns followed by every derived column the engine writes.  The
per-activity cost columns `…成本` (app.py line 187) and per-product
commission columns `…佣金` (line 208) are only created when the underlying
input column is present, hence `Option`. -/
structure OutRow where
  customer_id : ℚ
  customer_type : Bool
  rev : Fin 5 → ℚ
  cost : Fin 5 → ℚ
  act : Fin 5 → ℚ
  extra : List (String × ℚ)
  total_revenue : ℚ
  total_cogs : ℚ
  gross_margin : ℚ
  gross_margin_rate : Option ℚ
  activityCostCol : Fin 5 → Option ℚ
  variable_activity_cost : ℚ
  commissionCol : Fin 5 → Option ℚ
  sales_commission : ℚ
  allocated_fixed_cost : ℚ
  net_profit : ℚ
  net_margin_rate : Option ℚ

/-- The engine's output row for the raw row `r` sitting at (1-based)
position `i` of the table.  `customer_id` is the input identifier when the
column exists, else the synthesized `range(1, len+1)` value `i`
(app.py lines 152-153). -/
def mkOutRow (c : Cols) (rows : List RawRow) (e : ℚ) (i : ℕ) (r : RawRow) : OutRow where
  customer_id := if c.hasId then r.customer_id else (i : ℚ)
  customer_type := r.customer_type
  rev := r.rev
  cost := r.cost
  act := r.act
  extra := r.extra
  total_revenue := total_revenue c r
  total_cogs := total_cogs c r
  gross_margin := gross_margin c r
  gross_margin_rate := gross_margin_rate c r
  activityCostCol := fun j => if c.act j then some (r.act j * activity_rates j) else none
  variable_activity_cost := variable_activity_cost c r
  commissionCol := fun j => if c.rev j then some (r.rev j * product_commission_rates j) else none
  sales_commission := sales_commission c r
  allocated_fixed_cost := allocated_fixed_cost c rows e r
  net_profit := net_profit c rows e r
  net_margin_rate := net_margin_rate c rows e r

/-- Builds the output rows, numbering them from `i` (the synthesized
identifiers start at 1, mirroring `range(1, len(client_data)+1)`). -/
def outRowsFrom (c : Cols) (rows : List RawRow) (e : ℚ) : ℕ → List RawRow → List OutRow
  | _, [] => []
  | i, r :: rs => mkOutRow c rows e i r :: outRowsFrom c rows e (i + 1) rs

/-- The engine `calculate_correct_client_profits` (app.py lines 147-236).  Returns the
derived table together with the other five components of the source's
return tuple: `product_commission_rates`, `total_five_activity_cost`,
`remaining_other_expenses`, `total_commission`, `remaining_fixed_cost`.
The source first copies its input (`client_data = client_data.copy()`,
line 149), so all column writes land on the returned frame only. -/
def calculate_correct_client_profits (c : Cols) (rows : List RawRow) (e : ℚ) :
    List OutRow × (Fin 5 → ℚ) × ℚ × ℚ × ℚ × ℚ :=
  (outRowsFrom c rows e 1 rows,
   product_commission_rates,
   total_five_activity_cost c rows,
   remaining_other_expenses c rows e,
   total_commission c rows,
   remaining_fixed_cost c rows e)

/-- The four profitability tiers of `classify_customer`
(app.py lines 2099-2107): 高盈利潜力 = highPotential,
中等盈利潜力 = mediumPotential, 低盈利潜力 = lowPotential,
亏损风险 = lossRisk. -/
inductive Tier where
  | highPotential
  | mediumPotential
  | lowPotential
  | lossRisk
deriving DecidableEq, Repr

/-- Rank order for tier monotonicity: loss-risk < low < medium < high. -/
def tier_rank : Tier → ℕ
  | .lossRisk => 0
  | .lowPotential => 1
  | .mediumPotential => 2
  | .highPotential => 3

/-- The tier map `classify_customer` (app.py lines 2099-2107): `prob >= 0.8` → 高盈利潜力,
`elif prob >= 0.6` → 中等盈利潜力, `elif prob >= 0.4` → 低盈利潜力,
else 亏损风险. -/
def classify_customer (prob : ℚ) : Tier :=
  if 8/10 ≤ prob then .highPotential
  else if 6/10 ≤ prob then .mediumPotential
  else if 4/10 ≤ prob then .lowPotential
  else .lossRisk

/-- Number of entries of `available_features` (app.py lines 1741-1759):
the present ones among the 10 raw feature columns (5 product revenues,
5 activity counts), plus 客户类型编码 when 客户类型 exists (lines 1747-1749),
plus 毛利率, which the engine always creates (line 173). -/
def availableFeatureCount (c : Cols) : ℕ :=
  (List.ofFn fun i => c.rev i).count true +
    (List.ofFn fun i => c.act i).count true +
    (if c.hasType then 1 else 0) + 1

/-- Column `client_profit_data['是否盈利'] = (净利润 > 0).astype(int)`
(app.py line 1756). -/
def is_profitable (c : Cols) (rows : List RawRow) (e : ℚ) (r : RawRow) : ℚ :=
  if 0 < net_profit c rows e r then 1 else 0

/-- Modelled from the documented contract of scikit-learn's
`train_test_split(..., stratify=y)` (an external library, app.py
lines 1778-1780): stratification raises a `ValueError` exactly when the
least populated class present in `y` has fewer than 2 members, i.e. when
some label value occurs exactly once. -/
def stratifiedSplitRaises (labels : List ℚ) : Bool :=
  labels.any fun v => labels.count v == 1

/-- Observable outcome of the tab-3 training block
(app.py lines 1761-2077): `trained` — the `try` body completes and
`rf_model`/`scaler` exist; `trainingFailed` — an exception inside the
`try` is caught by the generic handler at line 2071 (`st.error`, no model
produced, the app continues); `insufficientFeatures` — the
`len(available_features) >= 8` gate at line 1761 fails and the `else`
branch at line 2075 runs (no model produced). -/
inductive TrainOutcome where
  | trained
  | trainingFailed
  | insufficientFeatures
deriving DecidableEq, Repr

/-- Control flow of the tab-3 training block (app.py lines 1761-2077)
over the allocation engine's output: the feature gate, then the stratified
split (whose failure, like any exception in the `try` body, lands in the
generic handler at line 2071). -/
def tab3_train (c : Cols) (rows : List RawRow) (e : ℚ) : TrainOutcome :=
  if 8 ≤ availableFeatureCount c then
    if stratifiedSplitRaises (rows.map (is_profitable c rows e)) then
      .trainingFailed
    else .trained
  else .insufficientFeatures

/-- One row of `client_profit_data` after the tab-3 pipeline: `alloc` holds
the allocation columns as they stand after tab 3 (the 毛利率 column is
overwritten at line 1752), and the remaining fields are the columns tab 3
attaches: 客户类型编码 (line 1748, absent when 客户类型 is missing),
是否盈利 (line 1756), 预测盈利概率/预测盈利性 (lines 2094-2095),
预测准确性 (line 2096) and 客户分级 (line 2109). -/
structure Tab3Row where
  alloc : OutRow
  customer_type_code : Option ℚ
  is_profitable : ℚ
  predicted_profit_probability : ℚ
  predicted_profitable : ℚ
  prediction_accuracy : ℚ
  customer_tier : Tier

/-- The tab-3 pipeline's effect on one engine output row, given the trained
model's outputs for that row: `proba` = `predict_proba(...)[:, 1]` and
`pred` = `predict(...)` (external model, passed in as data).
Line 1752 overwrites the 毛利率 column with `(毛利 / 总收入) * 100`. -/
def tab3_enrich (c : Cols) (o : OutRow) (proba : ℚ) (pred : Bool) : Tab3Row where
  alloc := { o with gross_margin_rate :=
    (pandasDiv o.gross_margin o.total_revenue).map (· * 100) }
  customer_type_code :=
    if c.hasType then some (if o.customer_type then 1 else 0) else none
  is_profitable := if 0 < o.net_profit then 1 else 0
  predicted_profit_probability := proba
  predicted_profitable := if pred then 1 else 0
  prediction_accuracy :=
    if (if pred then (1 : ℚ) else 0) = (if 0 < o.net_profit then (1 : ℚ) else 0)
    then 1 else 0
  customer_tier := classify_customer proba

/-- Batch prediction over the whole population (app.py lines 2086-2109):
row `i` of the frame receives the model's probability/class for row `i`. -/
def tab3_batch (c : Cols) (outRows : List OutRow) (preds : List (ℚ × Bool)) :
    List Tab3Row :=
  List.zipWith (fun o pb => tab3_enrich c o pb.1 pb.2) outRows preds

/-! ### Concrete inputs

`colsAll` is the full schema of `create_sample_data` (app.py lines
124-142); `rowA`/`rowB` are the two customers of the spec's concrete
scenario (§8 item 7); `rowZero` is an all-zero customer. -/

/-- All input columns present. -/
def colsAll : Cols where
  rev := fun _ => true
  cost := fun _ => true
  act := fun _ => true
  hasId := true
  hasType := true

/-- All input columns present except the 客户ID identifier column. -/
def colsNoId : Cols where
  rev := fun _ => true
  cost := fun _ => true
  act := fun _ => true
  hasId := false
  hasType := true

/-- Scenario customer A: revenues [10000,0,0,0,0], costs [6000,0,0,0,0],
activities ships=5, orders=20, expedite=0, inquiries=2, design=1. -/
def rowA : RawRow where
  customer_id := 1
  customer_type := true
  rev := ![10000, 0, 0, 0, 0]
  cost := ![6000, 0, 0, 0, 0]
  act := ![5, 20, 0, 2, 1]
  extra := []

/-- Scenario customer B: revenues [0,5000,0,0,0], costs [0,4000,0,0,0],
activities ships=2, orders=10, expedite=1, inquiries=1, design=0. -/
def rowB : RawRow where
  customer_id := 2
  customer_type := false
  rev := ![0, 5000, 0, 0, 0]
  cost := ![0, 4000, 0, 0, 0]
  act := ![2, 10, 1, 1, 0]
  extra := []

/-- A customer whose five product revenues (and everything else) are zero. -/
def rowZero : RawRow where
  customer_id := 3
  customer_type := false
  rev := ![0, 0, 0, 0, 0]
  cost := ![0, 0, 0, 0, 0]
  act := ![0, 0, 0, 0, 0]
  extra := []

/-- A zero-revenue customer with one shipment (activity cost 7). -/
def rowOneShip : RawRow where
  customer_id := 4
  customer_type := false
  rev := ![0, 0, 0, 0, 0]
  cost := ![0, 0, 0, 0, 0]
  act := ![1, 0, 0, 0, 0]
  extra := []

/-- A customer that is profitable when `total_other_expenses = 0`. -/
def rowWin : RawRow where
  customer_id := 5
  customer_type := true
  rev := ![1000, 0, 0, 0, 0]
  cost := ![0, 0, 0, 0, 0]
  act := ![0, 0, 0, 0, 0]
  extra := []

/-- A loss-making customer (pure cost, no revenue). -/
def rowLoss1 : RawRow where
  customer_id := 6
  customer_type := false
  rev := ![0, 0, 0, 0, 0]
  cost := ![1000, 0, 0, 0, 0]
  act := ![0, 0, 0, 0, 0]
  extra := []

/-- A second loss-making customer. -/
def rowLoss2 : RawRow where
  customer_id := 7
  customer_type := false
  rev := ![0, 0, 0, 0, 0]
  cost := ![2000, 0, 0, 0, 0]
  act := ![0, 0, 0, 0, 0]
  extra := []

/-! ### Structural lemmas about the engine's output list -/

/-- Every member of `outRowsFrom` is `mkOutRow` applied to some input row. -/
theorem mem_outRowsFrom {c : Cols} {rows : List RawRow} {e : ℚ} {o : OutRow} :
    ∀ {i : ℕ} {l : List RawRow}, o ∈ outRowsFrom c rows e i l →
      ∃ j r, r ∈ l ∧ o = mkOutRow c rows e j r := by
  intro i l
  induction l generalizing i with
  | nil => intro h; cases h
  | cons r rs ih =>
    intro h
    rcases List.mem_cons.mp h with h | h
    · exact ⟨i, r, List.mem_cons_self r rs, h⟩
    · rcases ih h with ⟨j, r', hr', ho⟩
      exact ⟨j, r', List.mem_cons_of_mem r hr', ho⟩

/-- Mapping a position-independent field over the output rows is mapping
the underlying per-row definition over the input rows. -/
theorem map_outRowsFrom {α : Type} (c : Cols) (rows : List RawRow) (e : ℚ)
    (f : OutRow → α) (g : RawRow → α)
    (hfg : ∀ j r, f (mkOutRow c rows e j r) = g r) :
    ∀ (i : ℕ) (l : List RawRow), (outRowsFrom c rows e i l).map f = l.map g := by
  intro i l
  induction l generalizing i with
  | nil => rfl
  | cons r rs ih => simp [outRowsFrom, hfg, ih]

/-- The engine emits one output row per input row. -/
theorem length_outRowsFrom (c : Cols) (rows : List RawRow) (e : ℚ) :
    ∀ (i : ℕ) (l : List RawRow), (outRowsFrom c rows e i l).length = l.length := by
  intro i l
  induction l generalizing i with
  | nil => rfl
  | cons r rs ih => simp [outRowsFrom, ih]

/-- The `j`-th output row is `mkOutRow` at position `i + j` on the `j`-th
input row. -/
theorem get_outRowsFrom (c : Cols) (rows : List RawRow) (e : ℚ) :
    ∀ (i : ℕ) (l : List RawRow) (j : ℕ) (hj : j < (outRowsFrom c rows e i l).length)
      (hj' : j < l.length),
      (outRowsFrom c rows e i l).get ⟨j, hj⟩ = mkOutRow c rows e (i + j) (l.get ⟨j, hj'⟩) := by
  intro i l
  induction l generalizing i with
  | nil => intro j hj hj'; cases hj'
  | cons r rs ih =>
    intro j hj hj'
    cases j with
    | zero => rfl
    | succ j =>
      have := ih (i + 1) j (by simpa [outRowsFrom] using Nat.lt_of_succ_lt_succ hj)
        (Nat.lt_of_succ_lt_succ hj')
      simpa [outRowsFrom, Nat.add_assoc, Nat.add_comm 1 j] using this

/-- Sum of the allocated fixed costs over the whole population: when the
population revenue is positive the pro-rata allocation adds back up to
exactly `remaining_fixed_cost`. -/
theorem sum_allocated_fixed_cost (c : Cols) (rows : List RawRow) (e : ℚ)
    (h : 0 < total_revenue_all c rows) :
    (rows.map (allocated_fixed_cost c rows e)).sum = remaining_fixed_cost c rows e := by
  have hne : total_revenue_all c rows ≠ 0 := ne_of_gt h
  have hfun : rows.map (allocated_fixed_cost c rows e) =
      rows.map (fun r => total_revenue c r *
        (remaining_fixed_cost c rows e / total_revenue_all c rows)) := by
    apply List.map_congr_left
    intro r _
    simp [allocated_fixed_cost, h]
  rw [hfun, List.sum_map_mul_right]
  rw [show (rows.map (total_revenue c)).sum = total_revenue_all c rows from rfl]
  field_simp

/-! ### C1 — allocation conservation -/

/-- C1, claim as stated is false --: for the single-customer population
`[rowOneShip]` (zero revenue, one shipment) with
`total_other_expenses = 100000`, the engine charges only the 7.00 of
activity cost — the population sum of `五项变动费用 + 分摊销售佣金 +
分摊固定成本` is 7, nowhere within relative epsilon `1e-6` of 100000:
with zero population revenue the `else` branch at app.py line 223 writes
no fixed cost at all. -/
theorem conservation_counterexample :
    (((calculate_correct_client_profits colsAll [rowOneShip] 100000).1.map
        (fun o => o.variable_activity_cost + o.sales_commission +
          o.allocated_fixed_cost)).sum = 7) ∧
      ¬ |(((calculate_correct_client_profits colsAll [rowOneShip] 100000).1.map
          (fun o => o.variable_activity_cost + o.sales_commission +
            o.allocated_fixed_cost)).sum) - 100000| ≤ (1/1000000) * 100000 := by
  have h7 : (((calculate_correct_client_profits colsAll [rowOneShip] 100000).1.map
      (fun o => o.variable_activity_cost + o.sales_commission +
        o.allocated_fixed_cost)).sum = (7 : ℚ)) := by
    norm_num [calculate_correct_client_profits, outRowsFrom, mkOutRow,
      variable_activity_cost, sales_commission, allocated_fixed_cost,
      total_revenue_all, total_revenue, colsAll, rowOneShip, activity_rates,
      product_commission_rates, Fin.sum_univ_five]
  refine ⟨h7, ?_⟩
  rw [h7, abs_le]
  norm_num

/-- C1 (amended) --: provided the population's total revenue is positive,
the sum over all customers of `五项变动费用 + 分摊销售佣金 + 分摊固定成本`
in the engine's output equals `total_other_expenses` exactly (hence within
any tolerance): full absorption costing loses and double-counts nothing. -/
theorem conservation_of_pos_revenue (c : Cols) (rows : List RawRow) (e : ℚ)
    (h : 0 < total_revenue_all c rows) :
    ((calculate_correct_client_profits c rows e).1.map
      (fun o => o.variable_activity_cost + o.sales_commission +
        o.allocated_fixed_cost)).sum = e := by
  have hmap : ((calculate_correct_client_profits c rows e).1.map
      (fun o => o.variable_activity_cost + o.sales_commission +
        o.allocated_fixed_cost)) =
      rows.map (fun r => variable_activity_cost c r + sales_commission c r +
        allocated_fixed_cost c rows e r) := by
    apply map_outRowsFrom
    intro j r
    rfl
  rw [calculate_correct_client_profits] at hmap
  rw [calculate_correct_client_profits, hmap]
  have hsplit : (rows.map (fun r => variable_activity_cost c r + sales_commission c r +
      allocated_fixed_cost c rows e r)).sum =
      (rows.map (variable_activity_cost c)).sum + (rows.map (sales_commission c)).sum +
        (rows.map (allocated_fixed_cost c rows e)).sum := by
    induction rows with
    | nil => simp
    | cons r rs ih => simp [ih]; ring
  rw [hsplit, sum_allocated_fixed_cost c rows e h]
  simp only [remaining_fixed_cost, remaining_other_expenses, total_five_activity_cost,
    total_commission]
  ring

/-- Witness for `conservation_of_pos_revenue`: the two-customer scenario
population has positive revenue and its output columns sum to 100000. -/
theorem conservation_of_pos_revenue_witness :
    ((calculate_correct_client_profits colsAll [rowA, rowB] 100000).1.map
      (fun o => o.variable_activity_cost + o.sales_commission +
        o.allocated_fixed_cost)).sum = 100000 :=
  conservation_of_pos_revenue colsAll [rowA, rowB] 100000 (by
    norm_num [total_revenue_all, total_revenue, colsAll, rowA, rowB, Fin.sum_univ_five])

/-! ### C2 — allocation identity -/

/-- C2 --: for every customer in the engine's output,
`净利润 = 毛利 − 五项变动费用 − 分摊固定成本 − 分摊销售佣金`
(app.py lines 226-231), exactly. -/
theorem net_profit_identity (c : Cols) (rows : List RawRow) (e : ℚ)
    (o : OutRow) (ho : o ∈ (calculate_correct_client_profits c rows e).1) :
    o.net_profit = o.gross_margin - o.variable_activity_cost -
      o.allocated_fixed_cost - o.sales_commission := by
  rcases mem_outRowsFrom ho with ⟨j, r, hr, rfl⟩
  rfl

/-- Witness for `net_profit_identity` at the first row of the concrete
scenario population. -/
theorem net_profit_identity_witness :
    ((calculate_correct_client_profits colsAll [rowA, rowB] 100000).1.get
        ⟨0, by norm_num [calculate_correct_client_profits, outRowsFrom]⟩).net_profit =
      ((calculate_correct_client_profits colsAll [rowA, rowB] 100000).1.get
        ⟨0, by norm_num [calculate_correct_client_profits, outRowsFrom]⟩).gross_margin -
      ((calculate_correct_client_profits colsAll [rowA, rowB] 100000).1.get
        ⟨0, by norm_num [calculate_correct_client_profits, outRowsFrom]⟩).variable_activity_cost -
      ((calculate_correct_client_profits colsAll [rowA, rowB] 100000).1.get
        ⟨0, by norm_num [calculate_correct_client_profits, outRowsFrom]⟩).allocated_fixed_cost -
      ((calculate_correct_client_profits colsAll [rowA, rowB] 100000).1.get
        ⟨0, by norm_num [calculate_correct_client_profits, outRowsFrom]⟩).sales_commission :=
  net_profit_identity colsAll [rowA, rowB] 100000 _ (List.get_mem _ _ _)

/-! ### C3 — zero-revenue boundary -/

/-- C3, claim as stated is false --: in the population `[rowZero, rowA]`
the zero-revenue customer's 毛利率 and 净利润率 are the unguarded pandas
quotients `0/0` (app.py lines 173 and 234) — non-finite (`none`), not the
claimed 0.  Only `分摊固定成本 = 0` holds. -/
theorem zero_revenue_counterexample :
    ((calculate_correct_client_profits colsAll [rowZero, rowA] 100000).1.map
        (fun o => o.gross_margin_rate)) = [none, some (2/5)] ∧
      ((calculate_correct_client_profits colsAll [rowZero, rowA] 100000).1.map
        (fun o => o.net_margin_rate)) = [none, some (-48/5)] ∧
      ¬ ((calculate_correct_client_profits colsAll [rowZero, rowA] 100000).1.map
        (fun o => o.gross_margin_rate)) = [some 0, some (2/5)] := by
  have h1 : ((calculate_correct_client_profits colsAll [rowZero, rowA] 100000).1.map
      (fun o => o.gross_margin_rate)) = [none, some (2/5)] := by
    norm_num [calculate_correct_client_profits, outRowsFrom, mkOutRow,
      gross_margin_rate, pandasDiv, gross_margin, total_revenue, total_cogs,
      colsAll, rowZero, rowA, Fin.sum_univ_five]
  have h2 : ((calculate_correct_client_profits colsAll [rowZero, rowA] 100000).1.map
      (fun o => o.net_margin_rate)) = [none, some (-48/5)] := by
    norm_num [calculate_correct_client_profits, outRowsFrom, mkOutRow,
      net_margin_rate, net_profit, pandasDiv, gross_margin, total_revenue,
      total_cogs, variable_activity_cost, sales_commission, allocated_fixed_cost,
      total_revenue_all, remaining_fixed_cost, remaining_other_expenses,
      total_five_activity_cost, total_commission, colsAll, rowZero, rowA,
      activity_rates, product_commission_rates, Fin.sum_univ_five]
  refine ⟨h1, h2, ?_⟩
  rw [h1]
  simp

/-- C3 (amended) --: a customer whose present product revenues sum to zero
gets `分摊固定成本 = 0`, while its `毛利率` and `净利润率` are non-finite
(pandas NaN/±infinity, modelled `none`) rather than 0; no Python exception
is raised — the engine is total on this input. -/
theorem zero_revenue_rows (c : Cols) (rows : List RawRow) (e : ℚ) (o : OutRow)
    (ho : o ∈ (calculate_correct_client_profits c rows e).1)
    (hz : o.total_revenue = 0) :
    o.allocated_fixed_cost = 0 ∧ o.gross_margin_rate = none ∧
      o.net_margin_rate = none := by
  rcases mem_outRowsFrom ho with ⟨j, r, hr, rfl⟩
  have hz' : total_revenue c r = 0 := hz
  refine ⟨?_, ?_, ?_⟩
  · show allocated_fixed_cost c rows e r = 0
    unfold allocated_fixed_cost
    split_ifs with h
    · rw [hz', zero_mul]
    · rfl
  · show gross_margin_rate c r = none
    simp [gross_margin_rate, pandasDiv, hz']
  · show net_margin_rate c rows e r = none
    simp [net_margin_rate, pandasDiv, hz']

/-- Witness for `zero_revenue_rows` at the zero-revenue row of
`[rowZero, rowA]`. -/
theorem zero_revenue_rows_witness :
    ((calculate_correct_client_profits colsAll [rowZero, rowA] 100000).1.get
        ⟨0, by norm_num [calculate_correct_client_profits, outRowsFrom]⟩).allocated_fixed_cost = 0 ∧
      ((calculate_correct_client_profits colsAll [rowZero, rowA] 100000).1.get
        ⟨0, by norm_num [calculate_correct_client_profits, outRowsFrom]⟩).gross_margin_rate = none ∧
      ((calculate_correct_client_profits colsAll [rowZero, rowA] 100000).1.get
        ⟨0, by norm_num [calculate_correct_client_profits, outRowsFrom]⟩).net_margin_rate = none :=
  zero_revenue_rows colsAll [rowZero, rowA] 100000 _ (List.get_mem _ _ _)
    (by norm_num [calculate_correct_client_profits, outRowsFrom, mkOutRow,
      total_revenue, colsAll, rowZero, Fin.sum_univ_five])

/-! ### C4 — concrete scenario -/

/-- C4 --: the spec's two-customer scenario, computed by the embedded
engine with its hard-coded rate tables: A's activity cost 174.4 = 872/5,
commission 300, gross margin 4000; B's activity cost 315.7 = 3157/10,
commission 150, gross margin 1000; population totals 490.1 and 450;
remaining fixed cost 99059.9 = 990599/10; fixed-cost rate
99059.9/15000 = 990599/150000 ≈ 6.6040; A's allocated fixed cost
990599/15 ≈ 66040. -/
theorem concrete_scenario :
    variable_activity_cost colsAll rowA = 872/5 ∧
      sales_commission colsAll rowA = 300 ∧
      gross_margin colsAll rowA = 4000 ∧
      variable_activity_cost colsAll rowB = 3157/10 ∧
      sales_commission colsAll rowB = 150 ∧
      gross_margin colsAll rowB = 1000 ∧
      total_five_activity_cost colsAll [rowA, rowB] = 4901/10 ∧
      total_commission colsAll [rowA, rowB] = 450 ∧
      remaining_fixed_cost colsAll [rowA, rowB] 100000 = 990599/10 ∧
      remaining_fixed_cost colsAll [rowA, rowB] 100000 /
          total_revenue_all colsAll [rowA, rowB] = 990599/150000 ∧
      |remaining_fixed_cost colsAll [rowA, rowB] 100000 /
          total_revenue_all colsAll [rowA, rowB] - 6604/1000| ≤ 1/10000 ∧
      allocated_fixed_cost colsAll [rowA, rowB] 100000 rowA = 990599/15 ∧
      |allocated_fixed_cost colsAll [rowA, rowB] 100000 rowA - 66040| ≤ 1/10 := by
  refine ⟨?_, ?_, ?_, ?_, ?_, ?_, ?_, ?_, ?_, ?_, ?_, ?_, ?_⟩ <;>
    first
      | (rw [abs_le]
         constructor <;>
           norm_num [allocated_fixed_cost, total_revenue_all, remaining_fixed_cost,
             remaining_other_expenses, total_five_activity_cost, total_commission,
             variable_activity_cost, sales_commission, gross_margin, total_revenue,
             total_cogs, colsAll, rowA, rowB, activity_rates, product_commission_rates,
             Fin.sum_univ_five])
      | norm_num [allocated_fixed_cost, total_revenue_all, remaining_fixed_cost,
          remaining_other_expenses, total_five_activity_cost, total_commission,
          variable_activity_cost, sales_commission, gross_margin, total_revenue,
          total_cogs, colsAll, rowA, rowB, activity_rates, product_commission_rates,
          Fin.sum_univ_five]

/-! ### C5 — tier thresholds and monotonicity -/

/-- C5 --: on `[0,1]`, `classify_customer` assigns exactly one tier by the
fixed non-overlapping thresholds (`≥ 0.8` high, `[0.6, 0.8)` medium,
`[0.4, 0.6)` low, `< 0.4` loss-risk), and the assignment is monotone in the
probability under the rank order loss-risk < low < medium < high. -/
theorem classify_customer_tiers_monotone :
    (∀ p : ℚ, 0 ≤ p → p ≤ 1 →
      (classify_customer p = Tier.highPotential ↔ 8/10 ≤ p) ∧
        (classify_customer p = Tier.mediumPotential ↔ 6/10 ≤ p ∧ p < 8/10) ∧
        (classify_customer p = Tier.lowPotential ↔ 4/10 ≤ p ∧ p < 6/10) ∧
        (classify_customer p = Tier.lossRisk ↔ p < 4/10)) ∧
      (∀ p q : ℚ, 0 ≤ p → p < q → q ≤ 1 →
        tier_rank (classify_customer p) ≤ tier_rank (classify_customer q)) := by
  constructor
  · intro p _ _
    unfold classify_customer
    split_ifs with h1 h2 h3 <;>
      refine ⟨?_, ?_, ?_, ?_⟩ <;>
      simp only [reduceCtorEq, false_iff, true_iff, iff_true, iff_false, not_and,
        not_lt, not_le] <;>
      first
        | linarith
        | (intro h; linarith)
        | (constructor <;> linarith)
  · intro p q _ hpq _
    unfold classify_customer
    split_ifs <;> norm_num [tier_rank] <;> linarith

/-- Witness for `classify_customer_tiers_monotone`: 0.9 is high-potential
and rank is monotone from 0.5 to 0.7. -/
theorem classify_customer_tiers_monotone_witness :
    classify_customer (9/10) = Tier.highPotential ∧
      tier_rank (classify_customer (5/10)) ≤ tier_rank (classify_customer (7/10)) :=
  ⟨((classify_customer_tiers_monotone.1 (9/10) (by norm_num) (by norm_num)).1).mpr
      (by norm_num),
    classify_customer_tiers_monotone.2 (5/10) (7/10) (by norm_num) (by norm_num)
      (by norm_num)⟩

/-! ### C7 — behavior on a missing identifier column -/

/-- C7, claim as stated is false --: with the 客户ID column absent the
engine does not raise anything — app.py lines 152-153 silently synthesize
`range(1, len+1)`: both rows are processed and receive identifiers 1, 2.
(No `MissingIdentityError` — indeed no `raise` statement or custom
exception class — exists anywhere in app.py.) -/
theorem missing_id_counterexample :
    ((calculate_correct_client_profits colsNoId [rowA, rowB] 100000).1.map
        (fun o => o.customer_id)) = [1, 2] ∧
      (calculate_correct_client_profits colsNoId [rowA, rowB] 100000).1.length = 2 := by
  exact ⟨rfl, rfl⟩

/-- C7 (amended) --: when the customer-identifier column is missing, the
engine synthesizes the sequential identifiers 1..n for the n rows and
proceeds normally — no row is aborted and no error is raised. -/
theorem missing_id_synthesizes (c : Cols) (rows : List RawRow) (e : ℚ)
    (h : c.hasId = false) :
    (calculate_correct_client_profits c rows e).1.length = rows.length ∧
      ∀ (j : ℕ) (hj : j < (calculate_correct_client_profits c rows e).1.length),
        ((calculate_correct_client_profits c rows e).1.get ⟨j, hj⟩).customer_id =
          ((j + 1 : ℕ) : ℚ) := by
  refine ⟨length_outRowsFrom c rows e 1 rows, ?_⟩
  intro j hj
  have hj2 : j < (outRowsFrom c rows e 1 rows).length := hj
  have hj' : j < rows.length := by rwa [length_outRowsFrom] at hj2
  have hg := get_outRowsFrom c rows e 1 rows j hj2 hj'
  show ((outRowsFrom c rows e 1 rows).get ⟨j, hj2⟩).customer_id = ((j + 1 : ℕ) : ℚ)
  rw [hg]
  simp [mkOutRow, h, Nat.add_comm]

/-- Witness for `missing_id_synthesizes` on a concrete two-row table. -/
theorem missing_id_synthesizes_witness :
    (calculate_correct_client_profits colsNoId [rowA, rowB] 100000).1.length = 2 ∧
      ((calculate_correct_client_profits colsNoId [rowA, rowB] 100000).1.get
        ⟨0, by norm_num [calculate_correct_client_profits, outRowsFrom]⟩).customer_id = 1 := by
  have h := missing_id_synthesizes colsNoId [rowA, rowB] 100000 rfl
  refine ⟨h.1, ?_⟩
  have := h.2 0 (by norm_num [calculate_correct_client_profits, outRowsFrom])
  simpa using this

/-! ### C8 — insufficient training data -/

/-- C8 --: when the feature gate passes but some label class present in
`是否盈利` has fewer than two examples, the stratified split raises, the
generic handler at app.py line 2071 catches it (so the run does not crash),
and no model is produced — training lands in `trainingFailed`, never
`trained`.  The condition that stratification raises on a singleton class
is modelled from scikit-learn's documented contract (see
`stratifiedSplitRaises`); the source itself has no distinguished
`InsufficientDataError` type, only the catch-all handler. -/
theorem insufficient_data_aborts (c : Cols) (rows : List RawRow) (e : ℚ)
    (hfeat : 8 ≤ availableFeatureCount c)
    (hclass : ∃ v ∈ rows.map (is_profitable c rows e),
      (rows.map (is_profitable c rows e)).count v = 1) :
    tab3_train c rows e = TrainOutcome.trainingFailed ∧
      tab3_train c rows e ≠ TrainOutcome.trained := by
  have hraise : stratifiedSplitRaises (rows.map (is_profitable c rows e)) = true := by
    rcases hclass with ⟨v, hv, hcount⟩
    unfold stratifiedSplitRaises
    rw [List.any_eq_true]
    exact ⟨v, hv, by simp [hcount]⟩
  unfold tab3_train
  rw [if_pos hfeat, if_pos hraise]
  exact ⟨rfl, by simp⟩

/-- Witness for `insufficient_data_aborts`: three customers with
`total_other_expenses = 0` give labels `[1, 0, 0]` — the profitable class
has a single member, and training fails producing no model. -/
theorem insufficient_data_aborts_witness :
    tab3_train colsAll [rowWin, rowLoss1, rowLoss2] 0 = TrainOutcome.trainingFailed ∧
      tab3_train colsAll [rowWin, rowLoss1, rowLoss2] 0 ≠ TrainOutcome.trained := by
  have hl : [rowWin, rowLoss1, rowLoss2].map
      (is_profitable colsAll [rowWin, rowLoss1, rowLoss2] 0) = [1, 0, 0] := by
    norm_num [is_profitable, net_profit, gross_margin, total_revenue, total_cogs,
      variable_activity_cost, sales_commission, allocated_fixed_cost,
      total_revenue_all, remaining_fixed_cost, remaining_other_expenses,
      total_five_activity_cost, total_commission, colsAll, rowWin, rowLoss1,
      rowLoss2, activity_rates, product_commission_rates, Fin.sum_univ_five]
  exact insufficient_data_aborts colsAll [rowWin, rowLoss1, rowLoss2] 0
    (by decide)
    ⟨1, by rw [hl]; simp, by rw [hl]; norm_num [List.count_cons]⟩

/-! ### C9 — the prediction stage and the allocation columns -/

/-- C9, claim as stated is false --: the tab-3 pipeline does not keep
every allocation-engine field intact — app.py line 1752 overwrites the
engine's 毛利率 column with `(毛利 / 总收入) * 100`.  Concretely, the engine
gives customer A a 毛利率 of `2/5`; after the prediction pipeline the
column holds `40`. -/
theorem tab3_overwrites_margin_rate :
    ((tab3_batch colsAll (calculate_correct_client_profits colsAll [rowA] 100000).1
        [(1/2, true)]).map fun t => t.alloc.gross_margin_rate) = [some 40] ∧
      ((calculate_correct_client_profits colsAll [rowA] 100000).1.map
        fun o => o.gross_margin_rate) = [some (2/5)] ∧
      ¬ (some (40 : ℚ) = some (2/5 : ℚ)) := by
  refine ⟨?_, ?_, by norm_num⟩ <;>
    norm_num [tab3_batch, tab3_enrich, calculate_correct_client_profits,
      outRowsFrom, mkOutRow, gross_margin_rate, pandasDiv, gross_margin,
      total_revenue, total_cogs, colsAll, rowA, Fin.sum_univ_five]

/-- C9 (amended) --: the tab-3 prediction pipeline only attaches new
columns (客户类型编码, 是否盈利, 预测盈利概率, 预测盈利性, 预测准确性,
客户分级) and leaves every allocation-engine column unchanged — except
毛利率, which app.py line 1752 overwrites with the percent-rescaled value
`(毛利 / 总收入) * 100`; in particular the probability and tier attached
are exactly the model's probability and its `classify_customer` tier. -/
theorem tab3_preserves_other_allocation_fields (c : Cols) (o : OutRow)
    (proba : ℚ) (pred : Bool) :
    (tab3_enrich c o proba pred).alloc.customer_id = o.customer_id ∧
      (tab3_enrich c o proba pred).alloc.customer_type = o.customer_type ∧
      (tab3_enrich c o proba pred).alloc.rev = o.rev ∧
      (tab3_enrich c o proba pred).alloc.cost = o.cost ∧
      (tab3_enrich c o proba pred).alloc.act = o.act ∧
      (tab3_enrich c o proba pred).alloc.extra = o.extra ∧
      (tab3_enrich c o proba pred).alloc.total_revenue = o.total_revenue ∧
      (tab3_enrich c o proba pred).alloc.total_cogs = o.total_cogs ∧
      (tab3_enrich c o proba pred).alloc.gross_margin = o.gross_margin ∧
      (tab3_enrich c o proba pred).alloc.activityCostCol = o.activityCostCol ∧
      (tab3_enrich c o proba pred).alloc.variable_activity_cost =
        o.variable_activity_cost ∧
      (tab3_enrich c o proba pred).alloc.commissionCol = o.commissionCol ∧
      (tab3_enrich c o proba pred).alloc.sales_commission = o.sales_commission ∧
      (tab3_enrich c o proba pred).alloc.allocated_fixed_cost =
        o.allocated_fixed_cost ∧
      (tab3_enrich c o proba pred).alloc.net_profit = o.net_profit ∧
      (tab3_enrich c o proba pred).alloc.net_margin_rate = o.net_margin_rate ∧
      (tab3_enrich c o proba pred).alloc.gross_margin_rate =
        (pandasDiv o.gross_margin o.total_revenue).map (· * 100) ∧
      (tab3_enrich c o proba pred).predicted_profit_probability = proba ∧
      (tab3_enrich c o proba pred).customer_tier = classify_customer proba :=
  ⟨rfl, rfl, rfl, rfl, rfl, rfl, rfl, rfl, rfl, rfl, rfl, rfl, rfl, rfl, rfl,
    rfl, rfl, rfl, rfl⟩

/-! ### C10 — the engine leaves its input columns intact -/

/-- C10 --: `calculate_correct_client_profits` copies its input
(app.py line 149) and only ever writes derived columns to the copy: the
returned frame carries every original column's values unchanged (the
identifier column too, whenever it existed), and all derived fields live
only on the returned copy — in this pure embedding the caller's `rows`
value is untouched by construction, mirroring the `.copy()`. -/
theorem input_columns_preserved (c : Cols) (rows : List RawRow) (e : ℚ) :
    ((calculate_correct_client_profits c rows e).1.map
        fun o => (o.rev, o.cost, o.act, o.extra, o.customer_type)) =
      (rows.map fun r => (r.rev, r.cost, r.act, r.extra, r.customer_type)) ∧
      (c.hasId = true →
        ((calculate_correct_client_profits c rows e).1.map fun o => o.customer_id) =
          rows.map fun r => r.customer_id) := by
  constructor
  · exact map_outRowsFrom c rows e _ _ (fun j r => rfl) 1 rows
  · intro h
    exact map_outRowsFrom c rows e _ _ (fun j r => by simp [mkOutRow, h]) 1 rows

/-- Witness for `input_columns_preserved` on the concrete scenario table
(identifier column present). -/
theorem input_columns_preserved_witness :
    ((calculate_correct_client_profits colsAll [rowA, rowB] 100000).1.map
        fun o => o.customer_id) = [rowA.customer_id, rowB.customer_id] := by
  simpa using (input_columns_preserved colsAll [rowA, rowB] 100000).2 rfl

end TUG
